import Mathlib

/-!
Shallow embedding of the Dhanam multi-provider billing core
(`billing.service.ts`, `billing.controller.ts`, and the billing SDK's
`webhook.ts`), together with proofs settling the frozen claims about it.

Modelling conventions:
* Database rows (Prisma `user`, `billingEvent`, `usageMetric`) are lists of
  records inside a `Db` value; Prisma `findUnique`/`findFirst` become
  `List.find?`, `update` becomes a map over the list keyed by id, and
  `create` appends.
* JavaScript `Date` values are integers (epoch milliseconds); the UTC day
  used as a usage-counter key is an integer parameter.
* Monetary amounts are exact rationals: the handlers divide minor units by
  100, which is modelled as division in `Rat`.
* Optional / possibly-`undefined` string values are `Option String`;
  JavaScript truthiness of such a value (`undefined` and `""` are falsy) is
  `jsTruthy`.
* External services (Stripe SDK, Janua HTTP API, audit log, logger, the
  fire-and-forget role dispatch) perform no mutation of the modelled state;
  their outcomes enter the model as parameters where a claim depends on
  them (e.g. the result of `constructWebhookEvent`).
-/

namespace DhanamBilling

/-- Subscription tiers of the `@db` enum actually used by the billing core. -/
inductive SubscriptionTier
  | community
  | essentials
  | pro
deriving DecidableEq, Repr

/-- Usage metric types tracked per user and day. -/
inductive UsageMetricType
  | esg_calculation
  | monte_carlo_simulation
  | goal_probability
  | scenario_analysis
  | portfolio_rebalance
  | api_request
deriving DecidableEq, Repr

/-- The billing-relevant columns of the Prisma `user` row. -/
structure User where
  id : String
  email : String
  name : String
  stripeCustomerId : Option String
  januaCustomerId : Option String
  subscriptionTier : SubscriptionTier
  subscriptionStartedAt : Option Int
  subscriptionExpiresAt : Option Int
  stripeSubscriptionId : Option String
deriving DecidableEq, Repr

/-- A `billingEvent` ledger row as created by the webhook handlers
(free-form metadata is omitted: no modelled claim reads it). -/
structure BillingEvent where
  userId : String
  type : String
  amount : Rat
  currency : String
  status : String
  stripeEventId : String
deriving DecidableEq, Repr

/-- A `usageMetric` row: daily per-user per-feature counter. -/
structure UsageMetric where
  userId : String
  metricType : UsageMetricType
  date : Int
  count : Nat
deriving DecidableEq, Repr

/-- The mutable persisted state touched by the billing core. -/
structure Db where
  users : List User
  billingEvents : List BillingEvent
  usageMetrics : List UsageMetric
deriving DecidableEq, Repr

/-- JavaScript truthiness of a possibly-undefined string
(`undefined` and the empty string are falsy). -/
def jsTruthy (s : Option String) : Bool :=
  !((s.getD "") == "")

/-- Model of `s.toUpperCase() || fallback` on a string. -/
def jsUpperOr (s fallback : String) : String :=
  let u := s.toUpper
  if u = "" then fallback else u

/-- Model of `s?.toUpperCase() || fallback` on an optional string. -/
def jsUpperOrOpt (s : Option String) (fallback : String) : String :=
  match s with
  | none => fallback
  | some c => jsUpperOr c fallback

/-- Minor-unit amount normalization: `(cents || 0) / 100`. -/
def minorToAmount (cents : Option Int) : Rat :=
  ((cents.getD 0 : Int) : Rat) / 100

/-- Update function applied at one user id (Prisma `user.update where id`). -/
def updAt (uid : String) (g : User → User) : User → User :=
  fun v => if v.id = uid then g v else v

/-- Prisma `user.update({ where: { id }, data })` over the user list. -/
def updateUserById (users : List User) (uid : String) (g : User → User) :
    List User :=
  users.map (updAt uid g)

/-- Prisma `user.findUnique({ where: { stripeCustomerId } })`. -/
def findUserByStripeCustomerId (db : Db) (customerId : String) : Option User :=
  db.users.find? fun u => decide (u.stripeCustomerId = some customerId)

/-- Prisma `user.findUnique({ where: { id } })`. -/
def findUserById (db : Db) (uid : String) : Option User :=
  db.users.find? fun u => decide (u.id = uid)

/-- The fields of a Stripe subscription object read by the handlers:
`id`, `customer`, the billing period bounds, the first item's price
`unit_amount`, and the currency. -/
structure StripeSubscription where
  id : String
  customer : String
  currentPeriodStart : Int
  currentPeriodEnd : Int
  unitAmount : Option Int
  currency : String
deriving DecidableEq, Repr

/-- The fields of a Stripe invoice object read by the payment handlers. -/
structure StripeInvoice where
  id : String
  customer : String
  amountPaid : Option Int
  amountDue : Option Int
  currency : String
  subscription : Option String
deriving DecidableEq, Repr

/-- The fields of a Stripe checkout session read by
`handleCheckoutCompleted`, with its metadata entries flattened. -/
structure StripeCheckoutSession where
  id : String
  customer : Option String
  amountTotal : Option Int
  currency : Option String
  metaJanuaUserId : Option String
  metaPlan : Option String
  metaSource : Option String
deriving DecidableEq, Repr

/-- Payload variants carried by `event.data.object`. -/
inductive StripeEventData
  | subscription (s : StripeSubscription)
  | invoice (i : StripeInvoice)
  | session (s : StripeCheckoutSession)
  | other
deriving DecidableEq, Repr

/-- A verified Stripe event as passed to the service handlers. -/
structure StripeEvent where
  id : String
  type : String
  data : StripeEventData
deriving DecidableEq, Repr

/-- The `{received, error?}` body returned by the webhook endpoint. -/
structure WebhookResponse where
  received : Bool
  error : Option String
deriving DecidableEq, Repr

/-- The `data` object of the `user.update` call in
`handleSubscriptionCreated`. -/
def subscriptionCreatedData (sub : StripeSubscription) (u : User) : User :=
  { u with
    subscriptionTier := .pro
    subscriptionStartedAt := some (sub.currentPeriodStart * 1000)
    subscriptionExpiresAt := some (sub.currentPeriodEnd * 1000)
    stripeSubscriptionId := some sub.id }

/-- The ledger row created by `handleSubscriptionCreated`. -/
def subscriptionCreatedRow (userId eventId : String)
    (sub : StripeSubscription) : BillingEvent :=
  { userId := userId
    type := "subscription_created"
    amount := minorToAmount sub.unitAmount
    currency := jsUpperOr sub.currency "USD"
    status := "succeeded"
    stripeEventId := eventId }

/-- `BillingService.handleSubscriptionCreated`: find the user by Stripe
customer id; if absent, log and return (state unchanged); otherwise set the
tier to `pro`, set the period bounds and subscription id, and append a
`subscription_created` ledger row.  The Janua role dispatch at the end is
fire-and-forget and touches no modelled state. -/
def handleSubscriptionCreated (db : Db) (eventId : String)
    (sub : StripeSubscription) : Db :=
  match findUserByStripeCustomerId db sub.customer with
  | none => db
  | some user =>
    { db with
      users := updateUserById db.users user.id (subscriptionCreatedData sub)
      billingEvents := db.billingEvents ++
        [subscriptionCreatedRow user.id eventId sub] }

/-- `BillingService.handleSubscriptionUpdated`: refresh the expiry only. -/
def handleSubscriptionUpdated (db : Db) (_eventId : String)
    (sub : StripeSubscription) : Db :=
  match findUserByStripeCustomerId db sub.customer with
  | none => db
  | some user =>
    { db with
      users := updateUserById db.users user.id fun u =>
        { u with subscriptionExpiresAt := some (sub.currentPeriodEnd * 1000) } }

/-- The `data` object of the `user.update` call in
`handleSubscriptionCancelled`. -/
def subscriptionCancelledData (u : User) : User :=
  { u with
    subscriptionTier := .community
    subscriptionExpiresAt := none
    stripeSubscriptionId := none }

/-- The ledger row created by `handleSubscriptionCancelled`. -/
def subscriptionCancelledRow (userId eventId : String) : BillingEvent :=
  { userId := userId
    type := "subscription_cancelled"
    amount := 0
    currency := "USD"
    status := "succeeded"
    stripeEventId := eventId }

/-- `BillingService.handleSubscriptionCancelled`: revert the tier to
`community`, null the expiry, clear the stored subscription id, and append
a `subscription_cancelled` ledger row with amount 0. -/
def handleSubscriptionCancelled (db : Db) (eventId : String)
    (sub : StripeSubscription) : Db :=
  match findUserByStripeCustomerId db sub.customer with
  | none => db
  | some user =>
    { db with
      users := updateUserById db.users user.id subscriptionCancelledData
      billingEvents := db.billingEvents ++
        [subscriptionCancelledRow user.id eventId] }

/-- `BillingService.handlePaymentSucceeded`: ledger row only. -/
def handlePaymentSucceeded (db : Db) (eventId : String)
    (inv : StripeInvoice) : Db :=
  match findUserByStripeCustomerId db inv.customer with
  | none => db
  | some user =>
    { db with
      billingEvents := db.billingEvents ++
        [{ userId := user.id
           type := "payment_succeeded"
           amount := minorToAmount inv.amountPaid
           currency := jsUpperOr inv.currency "USD"
           status := "succeeded"
           stripeEventId := eventId }] }

/-- `BillingService.handlePaymentFailed`: ledger row only; the tier, the
expiry and the provider linkage are not touched. -/
def handlePaymentFailed (db : Db) (eventId : String)
    (inv : StripeInvoice) : Db :=
  match findUserByStripeCustomerId db inv.customer with
  | none => db
  | some user =>
    { db with
      billingEvents := db.billingEvents ++
        [{ userId := user.id
           type := "payment_failed"
           amount := minorToAmount inv.amountDue
           currency := jsUpperOr inv.currency "USD"
           status := "failed"
           stripeEventId := eventId }] }

/-- `BillingService.PLAN_TIER_MAP`: plan slugs to subscription tiers. -/
def PLAN_TIER_MAP (p : String) : Option SubscriptionTier :=
  if p = "essentials" then some .essentials
  else if p = "essentials_yearly" then some .essentials
  else if p = "pro" then some .pro
  else if p = "pro_yearly" then some .pro
  else none

/-- The tier granted by `handleCheckoutCompleted`:
`(plan && PLAN_TIER_MAP[plan]) || 'pro'`. -/
def planTierOf (plan : Option String) : SubscriptionTier :=
  match plan with
  | none => .pro
  | some p => if p = "" then .pro else (PLAN_TIER_MAP p).getD .pro

/-- The `data` object of the `user.update` call in
`handleCheckoutCompleted`; `user` is the record fetched before the update
(its customer id backs `(session.customer as string) || user.stripeCustomerId`). -/
def checkoutCompletedData (sess : StripeCheckoutSession) (now : Int)
    (user : User) (u : User) : User :=
  { u with
    subscriptionTier := planTierOf sess.metaPlan
    subscriptionStartedAt := some now
    stripeCustomerId :=
      if jsTruthy sess.customer then sess.customer
      else user.stripeCustomerId }

/-- The ledger row created by `handleCheckoutCompleted`. -/
def checkoutCompletedRow (userId eventId : String)
    (sess : StripeCheckoutSession) : BillingEvent :=
  { userId := userId
    type := "subscription_created"
    amount := minorToAmount sess.amountTotal
    currency := jsUpperOrOpt sess.currency "USD"
    status := "succeeded"
    stripeEventId := eventId }

/-- `BillingService.handleCheckoutCompleted`: skip if the session metadata
carries no (truthy) `janua_user_id`; otherwise find the user by that id,
set the tier mapped from the metadata plan (defaulting to `pro`), set
`subscriptionStartedAt` to now, adopt the session's customer id when
truthy, and append a `subscription_created` ledger row over the session
total.  The follow-up `retrieveCheckoutSession` call and the Janua role
dispatch touch no modelled state. -/
def handleCheckoutCompleted (db : Db) (eventId : String)
    (sess : StripeCheckoutSession) (now : Int) : Db :=
  if !(jsTruthy sess.metaJanuaUserId) then db
  else
    match findUserById db (sess.metaJanuaUserId.getD "") with
    | none => db
    | some user =>
      { db with
        users := updateUserById db.users user.id
          (checkoutCompletedData sess now user)
        billingEvents := db.billingEvents ++
          [checkoutCompletedRow user.id eventId sess] }

/-- `BillingController.handleWebhook`.  `webhookSecret` is the configured
`STRIPE_WEBHOOK_SECRET`; `constructed` is the outcome of
`stripeService.constructWebhookEvent` on the raw body (`none` when
signature verification threw).  Event types outside the switch fall
through to `{received: true}`. -/
def handleWebhook (webhookSecret : Option String)
    (constructed : Option StripeEvent) (now : Int) (db : Db) :
    Db × WebhookResponse :=
  if !(jsTruthy webhookSecret) then
    (db, { received := false, error := some "Webhook secret not configured" })
  else
    match constructed with
    | none => (db, { received := false, error := some "Invalid signature" })
    | some event =>
      match event.type, event.data with
      | "customer.subscription.created", .subscription s =>
        (handleSubscriptionCreated db event.id s, { received := true, error := none })
      | "customer.subscription.updated", .subscription s =>
        (handleSubscriptionUpdated db event.id s, { received := true, error := none })
      | "customer.subscription.deleted", .subscription s =>
        (handleSubscriptionCancelled db event.id s, { received := true, error := none })
      | "invoice.payment_succeeded", .invoice i =>
        (handlePaymentSucceeded db event.id i, { received := true, error := none })
      | "invoice.payment_failed", .invoice i =>
        (handlePaymentFailed db event.id i, { received := true, error := none })
      | "checkout.session.completed", .session s =>
        (handleCheckoutCompleted db event.id s now, { received := true, error := none })
      | _, _ => (db, { received := true, error := none })

/-- The unique key of a `usageMetric` row: `(userId, metricType, date)`. -/
def usageKey (uid : String) (m : UsageMetricType) (d : Int)
    (r : UsageMetric) : Bool :=
  decide (r.userId = uid ∧ r.metricType = m ∧ r.date = d)

/-- `BillingService.recordUsage`: upsert on the day's counter — create it
at 1 if absent, otherwise increment it. -/
def recordUsage (db : Db) (uid : String) (m : UsageMetricType) (d : Int) :
    Db :=
  match db.usageMetrics.find? (usageKey uid m d) with
  | none =>
    { db with usageMetrics := db.usageMetrics ++
        [{ userId := uid, metricType := m, date := d, count := 1 }] }
  | some _ =>
    { db with usageMetrics := db.usageMetrics.map fun r =>
        if usageKey uid m d r then { r with count := r.count + 1 } else r }

/-- Today's counter value: `usage?.count || 0`. -/
def getUsageCount (db : Db) (uid : String) (m : UsageMetricType) (d : Int) :
    Nat :=
  match db.usageMetrics.find? (usageKey uid m d) with
  | none => 0
  | some r => r.count

/-- `BillingService.usageLimits`: per-tier daily caps; `none` models the
JavaScript `Infinity` (unlimited), `some 0` a feature not entitled. -/
def usageLimits (t : SubscriptionTier) (m : UsageMetricType) : Option Nat :=
  match t, m with
  | .community, .esg_calculation => some 5
  | .community, .monte_carlo_simulation => some 2
  | .community, .goal_probability => some 0
  | .community, .scenario_analysis => some 0
  | .community, .portfolio_rebalance => some 0
  | .community, .api_request => some 500
  | .essentials, .esg_calculation => some 20
  | .essentials, .monte_carlo_simulation => some 10
  | .essentials, .goal_probability => some 5
  | .essentials, .scenario_analysis => some 3
  | .essentials, .portfolio_rebalance => some 0
  | .essentials, .api_request => some 5000
  | .pro, _ => none

/-- `BillingService.checkUsageLimit`: unknown user is denied; `pro` is
always allowed; otherwise unlimited caps allow, zero caps deny, and finite
caps compare today's count against the cap. -/
def checkUsageLimit (db : Db) (uid : String) (m : UsageMetricType)
    (d : Int) : Bool :=
  match findUserById db uid with
  | none => false
  | some user =>
    if user.subscriptionTier = .pro then true
    else
      match usageLimits user.subscriptionTier m with
      | none => true
      | some 0 => false
      | some limit => decide (getUsageCount db uid m d < limit)

/-- Sequential `record` calls: `recordN db uid m d k` performs `k` calls of
`recordUsage` for the same user, metric and day. -/
def recordN (db : Db) (uid : String) (m : UsageMetricType) (d : Int) :
    Nat → Db
  | 0 => db
  | k + 1 => recordUsage (recordN db uid m d k) uid m d

/-- Tier name strings as stored in the database enum. -/
def tierName : SubscriptionTier → String
  | .community => "community"
  | .essentials => "essentials"
  | .pro => "pro"

/-- The `tierRank` lookup table of `upgradeToPremium`. -/
def tierRankOfName (s : String) : Option Nat :=
  if s = "community" then some 0
  else if s = "essentials" then some 1
  else if s = "pro" then some 2
  else none

/-- Requested plan of `upgradeToPremium`: `options.plan || 'pro'`. -/
def requestedPlanOf (plan : Option String) : String :=
  if jsTruthy plan then plan.getD "" else "pro"

/-- Requested rank: `tierRank[requestedPlan] ?? 2`. -/
def requestedRankOf (plan : Option String) : Nat :=
  (tierRankOfName (requestedPlanOf plan)).getD 2

/-- Current rank: `tierRank[currentTier] ?? 0`. -/
def currentRankOf (t : SubscriptionTier) : Nat :=
  (tierRankOfName (tierName t)).getD 0

/-- Outcome of the `upgradeToPremium` guard section (user lookup and tier
rank check).  The two `route*` outcomes are where the source continues into
the provider flows (`upgradeToPremiumViaJanua` / `...ViaStripe`); provider
customer creation, checkout-session creation and every `user` write happen
only inside those flows, after this decision. -/
inductive UpgradeResult
  | userNotFound
  | alreadyAtOrAboveTier (msg : String)
  | routeJanua (userId : String) (plan : Option String)
  | routeStripe (userId : String) (plan : Option String)
deriving DecidableEq, Repr

/-- `BillingService.upgradeToPremium` up to provider routing: throw
`User not found`; throw `User is already on <tier> tier` when the current
rank is at or above the requested rank; otherwise route to Janua when
enabled, else direct Stripe. -/
def upgradeToPremium (db : Db) (userId : String) (plan : Option String)
    (januaEnabled : Bool) : UpgradeResult :=
  match findUserById db userId with
  | none => .userNotFound
  | some user =>
    if currentRankOf user.subscriptionTier ≥ requestedRankOf plan then
      .alreadyAtOrAboveTier
        ("User is already on " ++ tierName user.subscriptionTier ++ " tier")
    else if januaEnabled then .routeJanua userId plan
    else .routeStripe userId plan

/-- Consume an expected literal run of characters from the front of a
character list, returning the remainder on success. -/
def dropChars : List Char → List Char → Option (List Char)
  | [], cs => some cs
  | _ :: _, [] => none
  | p :: ps, c :: cs => if c == p then dropChars ps cs else none

/-- Characters of a URL authority up to the first delimiter. -/
def takeHostChars : List Char → List Char
  | [] => []
  | c :: cs =>
    if c == '/' || c == '?' || c == '#' || c == ':' then []
    else c :: takeHostChars cs

/-- Model of `new URL(url).hostname` for plain http(s) URLs: strip the
scheme and read the host up to the first delimiter; anything else fails
(the controller maps failure to `return_url is not a valid URL`). -/
def parseHostname (url : String) : Option String :=
  let cs := url.toList
  let rest? :=
    match dropChars "https://".toList cs with
    | some r => some r
    | none => dropChars "http://".toList cs
  match rest? with
  | none => none
  | some rest =>
    match takeHostChars rest with
    | [] => none
    | hs => some (String.mk hs)

/-- Boolean front-run check over character lists. -/
def charsMatchFront : List Char → List Char → Bool
  | [], _ => true
  | _ :: _, [] => false
  | p :: ps, c :: cs => (c == p) && charsMatchFront ps cs

/-- Character-list based suffix test (the `/re$/` anchors of the host
allow-list). -/
def strEndsWith (s suffix : String) : Bool :=
  charsMatchFront suffix.toList.reverse s.toList.reverse

/-- The `/^localhost(:\d+)?$/` development entry of the allow-list. -/
def isLocalhostHost (h : String) : Bool :=
  let cs := h.toList
  (cs == "localhost".toList) ||
    (match dropChars "localhost:".toList cs with
     | some ds => !ds.isEmpty && ds.all (·.isDigit)
     | none => false)

/-- The `allowedHosts` check of `BillingController.publicCheckout`:
`/\.madfam\.io$/`, `/\.dhan\.am$/`, `/\.enclii\.com$/`, plus localhost
outside production. -/
def allowedReturnHost (production : Bool) (host : String) : Bool :=
  strEndsWith host ".madfam.io" || strEndsWith host ".dhan.am" ||
    strEndsWith host ".enclii.com" ||
    (!production && isLocalhostHost host)

/-- HTTP outcome of the public checkout endpoint. -/
inductive CheckoutHttpResult
  | badRequest (msg : String)
  | redirect (status : Nat) (location : String)
deriving DecidableEq, Repr

/-- `BillingController.publicCheckout`: parse the `return_url` hostname
(rejecting unparsable URLs), reject hosts outside the allow-list, and
otherwise 302-redirect to the checkout URL produced by
`createExternalCheckout` (passed in as `checkoutUrl`; that service call
runs only when this function reaches the redirect branch). -/
def publicCheckout (production : Bool) (returnUrl : String)
    (checkoutUrl : String) : CheckoutHttpResult :=
  match parseHostname returnUrl with
  | none => .badRequest "return_url is not a valid URL"
  | some host =>
    if allowedReturnHost production host then .redirect 302 checkoutUrl
    else .badRequest "return_url host is not allowed"

/-- Result of the SDK's `parseWebhookPayload` (`ok` = returned payload,
`error` = thrown `Error` with the given message). -/
inductive SdkParseResult (α : Type)
  | ok (payload : α)
  | error (msg : String)
deriving DecidableEq, Repr

/-- Model of `JSON.parse` followed by the payload cast: a parse function is
supplied as a parameter; `none` models a thrown `SyntaxError`. -/
def jsonResult {α : Type} (parseJson : String → Option α) (raw : String) :
    SdkParseResult α :=
  match parseJson raw with
  | some p => SdkParseResult.ok p
  | none => SdkParseResult.error "Unexpected token in JSON"

/-- SDK `parseWebhookPayload(rawBody, signature?, secret?)`: when both the
signature and the secret are truthy, verify (the HMAC comparison
`verifyWebhookSignature` enters as the parameter `verify`) and throw
`Invalid webhook signature` on failure; otherwise skip verification and
parse the raw body. -/
def parseWebhookPayload {α : Type} (verify : String → String → String → Bool)
    (parseJson : String → Option α) (rawBody : String)
    (signature secret : Option String) : SdkParseResult α :=
  if jsTruthy signature && jsTruthy secret then
    if verify rawBody (signature.getD "") (secret.getD "") then
      jsonResult parseJson rawBody
    else SdkParseResult.error "Invalid webhook signature"
  else jsonResult parseJson rawBody

/-- Number of ledger rows carrying a given provider-native event id. -/
def countEvt (l : List BillingEvent) (eid : String) : Nat :=
  (l.filter fun e => decide (e.stripeEventId = eid)).length

/-!
Example rows used by the concrete witness theorems.
-/

/-- A community-tier subscriber linked to Stripe customer `cus_1`. -/
def wUser : User :=
  { id := "user-1", email := "u1@example.com", name := "User One"
    stripeCustomerId := some "cus_1", januaCustomerId := none
    subscriptionTier := .community, subscriptionStartedAt := none
    subscriptionExpiresAt := none, stripeSubscriptionId := none }

/-- A pro-tier subscriber linked to Stripe customer `cus_pro`. -/
def wProUser : User :=
  { id := "user-pro", email := "u2@example.com", name := "User Two"
    stripeCustomerId := some "cus_pro", januaCustomerId := none
    subscriptionTier := .pro, subscriptionStartedAt := none
    subscriptionExpiresAt := none, stripeSubscriptionId := some "sub_pro" }

/-- An example database with the two subscribers and empty ledgers. -/
def wDb : Db :=
  { users := [wUser, wProUser], billingEvents := [], usageMetrics := [] }

/-- A subscription payload for customer `cus_1`. -/
def wSub : StripeSubscription :=
  { id := "sub_1", customer := "cus_1", currentPeriodStart := 1609459200
    currentPeriodEnd := 1640995200, unitAmount := some 1999, currency := "usd" }

/-- A subscription payload for an unmapped customer id. -/
def wSubUnknown : StripeSubscription :=
  { wSub with customer := "cus_unknown" }

/-- An invoice payload for customer `cus_1`. -/
def wInvoice : StripeInvoice :=
  { id := "in_1", customer := "cus_1", amountPaid := some 1999
    amountDue := some 1999, currency := "usd", subscription := some "sub_1" }

/-- A checkout session carrying subscriber `user-1` in its metadata. -/
def wSession : StripeCheckoutSession :=
  { id := "cs_1", customer := some "cus_9", amountTotal := some 1999
    currency := some "usd", metaJanuaUserId := some "user-1"
    metaPlan := some "essentials", metaSource := some "external" }

/-- A verifier that always fails, used to exercise the SDK error path. -/
def constFalseVerify : String → String → String → Bool := fun _ _ _ => false

/-- A parse function that returns the raw body, for SDK witnesses. -/
def idJson : String → Option String := fun s => some s

/-!
Generic lemmas about the embedded Prisma operations.
-/

/-- A keyed user update leaves `find?` by id in step with the base list
whenever the update preserves ids. -/
theorem findUserId_updateUserById (l : List User) (uid uid' : String)
    (g : User → User) (hid : ∀ v, (g v).id = v.id) :
    (updateUserById l uid g).find? (fun u => decide (u.id = uid')) =
      (l.find? (fun u => decide (u.id = uid'))).map (updAt uid g) := by
  have hfun : (fun u => decide (u.id = uid')) ∘ updAt uid g =
      (fun u => decide (u.id = uid')) := by
    funext v
    show decide ((updAt uid g v).id = uid') = decide (v.id = uid')
    unfold updAt
    split
    · rw [hid]
    · rfl
  unfold updateUserById
  rw [List.find?_map, hfun]

/-- A keyed user update leaves `find?` by Stripe customer id in step with
the base list whenever the update preserves that column. -/
theorem findUserCid_updateUserById (l : List User) (uid : String)
    (cid : Option String) (g : User → User)
    (hcid : ∀ v, (g v).stripeCustomerId = v.stripeCustomerId) :
    (updateUserById l uid g).find? (fun u => decide (u.stripeCustomerId = cid)) =
      (l.find? (fun u => decide (u.stripeCustomerId = cid))).map (updAt uid g) := by
  have hfun : (fun u => decide (u.stripeCustomerId = cid)) ∘ updAt uid g =
      (fun u => decide (u.stripeCustomerId = cid)) := by
    funext v
    show decide ((updAt uid g v).stripeCustomerId = cid) =
      decide (v.stripeCustomerId = cid)
    unfold updAt
    split
    · rw [hcid]
    · rfl
  unfold updateUserById
  rw [List.find?_map, hfun]

/-- Re-applying a keyed update is a no-op when the second update fixes
every image of the first. -/
theorem updateUserById_twice (l : List User) (uid : String)
    (g g' : User → User) (hid : ∀ v, (g v).id = v.id)
    (hgg : ∀ v, g' (g v) = g v) :
    updateUserById (updateUserById l uid g) uid g' = updateUserById l uid g := by
  unfold updateUserById
  rw [List.map_map]
  have hfun : updAt uid g' ∘ updAt uid g = updAt uid g := by
    funext v
    show updAt uid g' (updAt uid g v) = updAt uid g v
    unfold updAt
    by_cases h : v.id = uid
    · rw [if_pos h, if_pos (by rw [hid, h])]
      exact hgg v
    · rw [if_neg h, if_neg h]
  rw [hfun]

/-- Appending one ledger row with the observed event id bumps its count. -/
theorem countEvt_append_same (l : List BillingEvent) (e : BillingEvent)
    (eid : String) (he : e.stripeEventId = eid) :
    countEvt (l ++ [e]) eid = countEvt l eid + 1 := by
  unfold countEvt
  rw [List.filter_append]
  simp [he]

/-!
Claim theorems.
-/

/-- C3 counterexample: on a webhook whose signature fails verification
(`constructWebhookEvent` threw, modelled as `none`), the endpoint responds
`received: false` with an `Invalid signature` error — not `received: true`
as the claim states.  This matches the controller's own unit test. -/
theorem invalid_signature_response_counterexample :
    (handleWebhook (some "whsec_test_secret") none 0 wDb).2 =
      { received := false, error := some "Invalid signature" } := by
  decide

/-- C3 (amended): for every inbound webhook whose signature fails
verification, the endpoint drops the event (state unchanged) and responds
`received: false` with error `Invalid signature`, which is the structured
failure that signals provider-side retry. -/
theorem invalid_signature_drops_event (secret : String) (hs : secret ≠ "")
    (now : Int) (db : Db) :
    handleWebhook (some secret) none now db =
      (db, { received := false, error := some "Invalid signature" }) := by
  unfold handleWebhook jsTruthy
  simp [hs]

/-- C3 amended-claim witness at a concrete secret and database. -/
theorem invalid_signature_drops_event_witness :
    handleWebhook (some "whsec_test_secret") none 0 wDb =
      (wDb, { received := false, error := some "Invalid signature" }) :=
  invalid_signature_drops_event "whsec_test_secret" (by decide) 0 wDb

/-- C4: a `subscription created` event whose customer id maps to no stored
subscriber performs zero mutations (the handler returns the state
unchanged, and being a total function it throws nothing), and the endpoint
still acknowledges with `{received: true}`. -/
theorem unknown_customer_webhook_is_noop (db : Db) (eid : String)
    (sub : StripeSubscription) (secret : String) (now : Int)
    (h : findUserByStripeCustomerId db sub.customer = none)
    (hs : secret ≠ "") :
    handleSubscriptionCreated db eid sub = db ∧
    handleWebhook (some secret)
        (some ⟨eid, "customer.subscription.created", .subscription sub⟩)
        now db =
      (db, { received := true, error := none }) := by
  have h1 : handleSubscriptionCreated db eid sub = db := by
    unfold handleSubscriptionCreated
    rw [h]
  refine ⟨h1, ?_⟩
  have hb : jsTruthy (some secret) = true := by
    unfold jsTruthy
    simp [hs]
  unfold handleWebhook
  rw [hb]
  show (handleSubscriptionCreated db eid sub,
    ({ received := true, error := none } : WebhookResponse)) = _
  rw [h1]

/-- C4 witness: the concrete database holds no user for `cus_unknown`. -/
theorem unknown_customer_webhook_is_noop_witness :
    handleSubscriptionCreated wDb "evt_u" wSubUnknown = wDb ∧
    handleWebhook (some "whsec")
        (some ⟨"evt_u", "customer.subscription.created",
          .subscription wSubUnknown⟩) 0 wDb =
      (wDb, { received := true, error := none }) :=
  unknown_customer_webhook_is_noop wDb "evt_u" wSubUnknown "whsec" 0
    (by decide) (by decide)

/-- C7: a `payment failed` event for a found subscriber changes no user
row and no usage counter; the only state change is one appended ledger row
with the amount due and status `failed`. -/
theorem payment_failed_frame (db : Db) (eid : String) (inv : StripeInvoice)
    (user : User)
    (h : findUserByStripeCustomerId db inv.customer = some user) :
    (handlePaymentFailed db eid inv).users = db.users ∧
    (handlePaymentFailed db eid inv).usageMetrics = db.usageMetrics ∧
    ∃ row : BillingEvent,
      (handlePaymentFailed db eid inv).billingEvents =
          db.billingEvents ++ [row] ∧
        row.userId = user.id ∧ row.type = "payment_failed" ∧
        row.amount = minorToAmount inv.amountDue ∧ row.status = "failed" := by
  unfold handlePaymentFailed
  rw [h]
  exact ⟨rfl, rfl, _, rfl, rfl, rfl, rfl, rfl⟩

/-- C7 witness at the concrete database and invoice. -/
theorem payment_failed_frame_witness :
    (handlePaymentFailed wDb "evt_pf" wInvoice).users = wDb.users ∧
    (handlePaymentFailed wDb "evt_pf" wInvoice).usageMetrics =
      wDb.usageMetrics ∧
    ∃ row : BillingEvent,
      (handlePaymentFailed wDb "evt_pf" wInvoice).billingEvents =
          wDb.billingEvents ++ [row] ∧
        row.userId = wUser.id ∧ row.type = "payment_failed" ∧
        row.amount = minorToAmount wInvoice.amountDue ∧
        row.status = "failed" :=
  payment_failed_frame wDb "evt_pf" wInvoice wUser (by decide)

/-- C8: when the subscriber's current tier rank is at or above the
requested plan's rank, `upgradeToPremium` fails with the
already-at-or-above-tier error before any provider routing — the result is
the thrown error, not a `route*` outcome, so no provider customer and no
checkout session is created and the subscriber row is untouched (every
user write in the source happens inside the routed flows). -/
theorem already_at_or_above_tier_rejected (db : Db) (uid : String)
    (plan : Option String) (januaEnabled : Bool) (user : User)
    (h : findUserById db uid = some user)
    (hr : currentRankOf user.subscriptionTier ≥ requestedRankOf plan) :
    upgradeToPremium db uid plan januaEnabled =
      .alreadyAtOrAboveTier
        ("User is already on " ++ tierName user.subscriptionTier ++ " tier") := by
  unfold upgradeToPremium
  rw [h]
  simp [hr]

/-- C8 witness: a pro subscriber requesting the essentials plan. -/
theorem already_at_or_above_tier_rejected_witness :
    upgradeToPremium wDb "user-pro" (some "essentials") false =
      .alreadyAtOrAboveTier "User is already on pro tier" :=
  already_at_or_above_tier_rejected wDb "user-pro" (some "essentials") false
    wProUser (by decide) (by decide)

/-- C9: on the public checkout endpoint, once the `return_url` hostname is
parsed, a host outside the allow-list is rejected with the bad-request
`return_url host is not allowed` (the spec's `UntrustedRedirect`) for
every possible service outcome — so `createExternalCheckout` is never
consulted and no side effect occurs — while an allow-listed host is
accepted and 302-redirected to the provider checkout URL. -/
theorem redirect_allowlist (production : Bool) (url checkoutUrl host : String)
    (h : parseHostname url = some host) :
    (allowedReturnHost production host = false →
       publicCheckout production url checkoutUrl =
         .badRequest "return_url host is not allowed") ∧
    (allowedReturnHost production host = true →
       publicCheckout production url checkoutUrl =
         .redirect 302 checkoutUrl) := by
  unfold publicCheckout
  rw [h]
  constructor
  · intro ha
    simp [ha]
  · intro ha
    simp [ha]

/-- C9 witness: `https://evil.example/phish` is rejected and
`https://app.dhan.am/billing` is redirected, in production mode. -/
theorem redirect_allowlist_witness :
    publicCheckout true "https://evil.example/phish"
        "https://checkout.example/s1" =
      .badRequest "return_url host is not allowed" ∧
    publicCheckout true "https://app.dhan.am/billing"
        "https://checkout.example/s1" =
      .redirect 302 "https://checkout.example/s1" :=
  ⟨(redirect_allowlist true "https://evil.example/phish"
      "https://checkout.example/s1" "evil.example" (by decide)).1 (by decide),
   (redirect_allowlist true "https://app.dhan.am/billing"
      "https://checkout.example/s1" "app.dhan.am" (by decide)).2 (by decide)⟩

/-- C2: a `subscription cancelled` event for a found subscriber leaves
that subscriber at the base tier `community`, with a null expiry and a
cleared provider subscription id, and appends a ledger row with amount 0
and status `succeeded`; since the statement quantifies over the whole
state, it holds in particular after a prior `subscription created` event
granted `pro` (the witness instantiates exactly that scenario). -/
theorem cancellation_reverts_tier (db : Db) (eid : String)
    (sub : StripeSubscription) (user : User)
    (h : findUserByStripeCustomerId db sub.customer = some user) :
    ∃ u' : User,
      findUserById (handleSubscriptionCancelled db eid sub) user.id =
          some u' ∧
        u'.subscriptionTier = .community ∧
        u'.subscriptionExpiresAt = none ∧
        u'.stripeSubscriptionId = none ∧
        (handleSubscriptionCancelled db eid sub).billingEvents =
          db.billingEvents ++ [subscriptionCancelledRow user.id eid] := by
  have h' : db.users.find?
      (fun u => decide (u.stripeCustomerId = some sub.customer)) =
        some user := h
  have hmem : user ∈ db.users := List.mem_of_find?_eq_some h'
  have hsome : (db.users.find? (fun u => decide (u.id = user.id))).isSome := by
    rw [List.find?_isSome]
    exact ⟨user, hmem, by simp⟩
  obtain ⟨w, hw⟩ := Option.isSome_iff_exists.mp hsome
  have hpw := List.find?_some hw
  have hwid : w.id = user.id := of_decide_eq_true hpw
  have hdb : handleSubscriptionCancelled db eid sub =
      { db with
        users := updateUserById db.users user.id subscriptionCancelledData
        billingEvents := db.billingEvents ++
          [subscriptionCancelledRow user.id eid] } := by
    unfold handleSubscriptionCancelled
    rw [h]
  rw [hdb]
  refine ⟨updAt user.id subscriptionCancelledData w, ?_, ?_, ?_, ?_, rfl⟩
  · unfold findUserById
    show (updateUserById db.users user.id subscriptionCancelledData).find?
      (fun u => decide (u.id = user.id)) = _
    rw [findUserId_updateUserById db.users user.id user.id
      subscriptionCancelledData (fun v => rfl), hw]
    rfl
  · unfold updAt
    rw [if_pos hwid]
    rfl
  · unfold updAt
    rw [if_pos hwid]
    rfl
  · unfold updAt
    rw [if_pos hwid]
    rfl

/-- C2 witness: the two-step scenario — `subscription created` grants
`pro`, a later `subscription cancelled` for the same subscription reverts
the same subscriber to `community` with cleared linkage. -/
theorem cancellation_reverts_tier_witness :
    ∃ u' : User,
      findUserById
          (handleSubscriptionCancelled
            (handleSubscriptionCreated wDb "evt_1" wSub) "evt_2" wSub)
          "user-1" =
        some u' ∧
      u'.subscriptionTier = .community ∧
      u'.subscriptionExpiresAt = none ∧
      u'.stripeSubscriptionId = none ∧
      (handleSubscriptionCancelled
          (handleSubscriptionCreated wDb "evt_1" wSub) "evt_2" wSub).billingEvents =
        (handleSubscriptionCreated wDb "evt_1" wSub).billingEvents ++
          [subscriptionCancelledRow "user-1" "evt_2"] :=
  cancellation_reverts_tier (handleSubscriptionCreated wDb "evt_1" wSub)
    "evt_2" wSub (subscriptionCreatedData wSub wUser) (by decide)

/-- C6: a `checkout completed` event carrying a subscriber id in its
metadata sets that subscriber's tier to the tier mapped from the metadata
plan slug — `planTierOf` defaults to `pro` for an absent or unrecognized
slug, as the trailing conjuncts state — sets `subscriptionStartedAt` to
now, and appends a ledger row whose amount is the session total
(normalized from minor units) with status `succeeded`. -/
theorem checkout_completed_grants_mapped_tier (db : Db) (eid : String)
    (sess : StripeCheckoutSession) (now : Int) (user : User)
    (hmeta : jsTruthy sess.metaJanuaUserId = true)
    (h : findUserById db (sess.metaJanuaUserId.getD "") = some user) :
    (∃ u' : User,
      findUserById (handleCheckoutCompleted db eid sess now) user.id =
          some u' ∧
        u'.subscriptionTier = planTierOf sess.metaPlan ∧
        u'.subscriptionStartedAt = some now ∧
        (handleCheckoutCompleted db eid sess now).billingEvents =
          db.billingEvents ++ [checkoutCompletedRow user.id eid sess] ∧
        (checkoutCompletedRow user.id eid sess).amount =
          minorToAmount sess.amountTotal ∧
        (checkoutCompletedRow user.id eid sess).status = "succeeded") ∧
    planTierOf none = .pro ∧
    (∀ p : String, PLAN_TIER_MAP p = none → planTierOf (some p) = .pro) := by
  refine ⟨?_, rfl, ?_⟩
  · have h' : db.users.find?
        (fun u => decide (u.id = sess.metaJanuaUserId.getD "")) =
          some user := h
    have hmem : user ∈ db.users := List.mem_of_find?_eq_some h'
    have hsome : (db.users.find? (fun u => decide (u.id = user.id))).isSome := by
      rw [List.find?_isSome]
      exact ⟨user, hmem, by simp⟩
    obtain ⟨w, hw⟩ := Option.isSome_iff_exists.mp hsome
    have hpw := List.find?_some hw
    have hwid : w.id = user.id := of_decide_eq_true hpw
    have hdb : handleCheckoutCompleted db eid sess now =
        { db with
          users := updateUserById db.users user.id
            (checkoutCompletedData sess now user)
          billingEvents := db.billingEvents ++
            [checkoutCompletedRow user.id eid sess] } := by
      unfold handleCheckoutCompleted
      rw [hmeta]
      show (match findUserById db (sess.metaJanuaUserId.getD "") with
        | none => db
        | some user =>
          { db with
            users := updateUserById db.users user.id
              (checkoutCompletedData sess now user)
            billingEvents := db.billingEvents ++
              [checkoutCompletedRow user.id eid sess] }) = _
      rw [h]
    rw [hdb]
    refine ⟨updAt user.id (checkoutCompletedData sess now user) w,
      ?_, ?_, ?_, rfl, rfl, rfl⟩
    · unfold findUserById
      show (updateUserById db.users user.id
        (checkoutCompletedData sess now user)).find?
          (fun u => decide (u.id = user.id)) = _
      rw [findUserId_updateUserById db.users user.id user.id
        (checkoutCompletedData sess now user) (fun v => rfl), hw]
      rfl
    · unfold updAt
      rw [if_pos hwid]
      rfl
    · unfold updAt
      rw [if_pos hwid]
      rfl
  · intro p hp
    show (if p = "" then SubscriptionTier.pro
      else (PLAN_TIER_MAP p).getD SubscriptionTier.pro) = SubscriptionTier.pro
    rw [hp]
    split <;> rfl

/-- C6 witness: a session with plan `essentials` maps to the essentials
tier for the concrete subscriber; the default conjuncts are instantiated
by the theorem itself. -/
theorem checkout_completed_grants_mapped_tier_witness :
    (∃ u' : User,
      findUserById (handleCheckoutCompleted wDb "evt_c" wSession 1700000000)
          "user-1" =
        some u' ∧
      u'.subscriptionTier = planTierOf (some "essentials") ∧
      u'.subscriptionStartedAt = some 1700000000 ∧
      (handleCheckoutCompleted wDb "evt_c" wSession 1700000000).billingEvents =
        wDb.billingEvents ++ [checkoutCompletedRow "user-1" "evt_c" wSession] ∧
      (checkoutCompletedRow "user-1" "evt_c" wSession).amount =
        minorToAmount (some 1999) ∧
      (checkoutCompletedRow "user-1" "evt_c" wSession).status = "succeeded") ∧
    planTierOf none = .pro ∧
    (∀ p : String, PLAN_TIER_MAP p = none → planTierOf (some p) = .pro) :=
  checkout_completed_grants_mapped_tier wDb "evt_c" wSession 1700000000 wUser
    (by decide) (by decide)

/-- C10: the SDK's `parseWebhookPayload` throws `Invalid webhook
signature` exactly when both the signature and the secret are supplied as
truthy (non-empty) strings and verification fails; whenever either is
omitted (or empty, which JavaScript truthiness treats the same way),
verification is skipped and the raw body is parsed. -/
theorem sdk_parse_webhook_signature_gate {α : Type}
    (verify : String → String → String → Bool)
    (parseJson : String → Option α) (rawBody : String)
    (signature secret : Option String) :
    (parseWebhookPayload verify parseJson rawBody signature secret =
        SdkParseResult.error "Invalid webhook signature" ↔
      (jsTruthy signature = true ∧ jsTruthy secret = true ∧
        verify rawBody (signature.getD "") (secret.getD "") = false)) ∧
    (jsTruthy signature = false ∨ jsTruthy secret = false →
      parseWebhookPayload verify parseJson rawBody signature secret =
        jsonResult parseJson rawBody) := by
  have hjson : ∀ r : String,
      jsonResult parseJson r ≠
        SdkParseResult.error "Invalid webhook signature" := by
    intro r
    unfold jsonResult
    cases parseJson r with
    | none =>
      intro hcontra
      injection hcontra with hmsg
      exact absurd hmsg (by decide)
    | some p =>
      intro hcontra
      exact SdkParseResult.noConfusion hcontra
  constructor
  · unfold parseWebhookPayload
    by_cases hs : jsTruthy signature = true
    · by_cases hc : jsTruthy secret = true
      · by_cases hv : verify rawBody (signature.getD "") (secret.getD "") = true
        · simp [hs, hc, hv, hjson rawBody]
        · simp [hs, hc, hv]
      · simp [hs, hc, hjson rawBody]
    · simp [hs, hjson rawBody]
  · intro hmiss
    unfold parseWebhookPayload
    rcases hmiss with hm | hm <;> simp [hm]

/-- C10 witness: with both arguments supplied and a failing verifier, the
SDK throws the signature error. -/
theorem sdk_parse_webhook_signature_gate_witness :
    parseWebhookPayload constFalseVerify idJson "raw-payload"
        (some "sig") (some "sec") =
      SdkParseResult.error "Invalid webhook signature" :=
  (sdk_parse_webhook_signature_gate constFalseVerify idJson "raw-payload"
    (some "sig") (some "sec")).1.mpr ⟨by decide, by decide, rfl⟩

/-!
Usage-meter lemmas for C5.
-/

/-- `recordUsage` never touches the user table. -/
theorem recordUsage_users (db : Db) (uid : String) (m : UsageMetricType)
    (d : Int) : (recordUsage db uid m d).users = db.users := by
  unfold recordUsage
  cases db.usageMetrics.find? (usageKey uid m d) <;> rfl

/-- The freshly created counter row matches its own key. -/
theorem usageKey_self (uid : String) (m : UsageMetricType) (d : Int) :
    usageKey uid m d
      { userId := uid, metricType := m, date := d, count := 1 } = true := by
  simp [usageKey]

/-- One `recordUsage` call increments the day's observed count by one. -/
theorem getUsageCount_recordUsage (db : Db) (uid : String)
    (m : UsageMetricType) (d : Int) :
    getUsageCount (recordUsage db uid m d) uid m d =
      getUsageCount db uid m d + 1 := by
  unfold recordUsage getUsageCount
  cases hfind : db.usageMetrics.find? (usageKey uid m d) with
  | none =>
    simp [List.find?_append, hfind, List.find?, usageKey_self]
  | some r =>
    have hr := List.find?_some hfind
    have hfun : (usageKey uid m d) ∘
        (fun x => if usageKey uid m d x then { x with count := x.count + 1 }
          else x) = usageKey uid m d := by
      funext x
      show usageKey uid m d
        (if usageKey uid m d x then { x with count := x.count + 1 } else x) =
          usageKey uid m d x
      by_cases hx : usageKey uid m d x = true
      · rw [if_pos hx]
        rfl
      · rw [if_neg hx]
    rw [List.find?_map, hfun, hfind]
    show (if usageKey uid m d r then { r with count := r.count + 1 }
      else r).count = r.count + 1
    rw [if_pos hr]

/-- Sequential recording never touches the user table. -/
theorem recordN_users (db : Db) (uid : String) (m : UsageMetricType)
    (d : Int) (k : Nat) : (recordN db uid m d k).users = db.users := by
  induction k with
  | zero => rfl
  | succ k ih =>
    show (recordUsage (recordN db uid m d k) uid m d).users = db.users
    rw [recordUsage_users, ih]

/-- `k` sequential `record` calls add `k` to the day's observed count. -/
theorem getUsageCount_recordN (db : Db) (uid : String) (m : UsageMetricType)
    (d : Int) (k : Nat) :
    getUsageCount (recordN db uid m d k) uid m d =
      getUsageCount db uid m d + k := by
  induction k with
  | zero => rfl
  | succ k ih =>
    show getUsageCount (recordUsage (recordN db uid m d k) uid m d) uid m d = _
    rw [getUsageCount_recordUsage, ih, Nat.add_assoc]

/-- C5: for a stored subscriber, `checkUsageLimit` is always `true` on the
`pro` tier; `false` when the tier's cap for the feature is zero; and after
exactly `k` sequential same-day `record` calls starting from a zero count
(each incrementing the counter, created at 1 when absent), it returns
`true` iff `k < cap` — in particular `false` after exactly `cap` calls. -/
theorem usage_cap_enforcement (db : Db) (uid : String) (m : UsageMetricType)
    (d : Int) (user : User) (h : findUserById db uid = some user) :
    (user.subscriptionTier = .pro → checkUsageLimit db uid m d = true) ∧
    (usageLimits user.subscriptionTier m = some 0 →
      checkUsageLimit db uid m d = false) ∧
    (∀ cap k : Nat, user.subscriptionTier ≠ .pro →
      usageLimits user.subscriptionTier m = some cap → cap ≠ 0 →
      getUsageCount db uid m d = 0 →
      getUsageCount (recordN db uid m d k) uid m d = k ∧
      checkUsageLimit (recordN db uid m d k) uid m d = decide (k < cap)) := by
  refine ⟨?_, ?_, ?_⟩
  · intro ht
    unfold checkUsageLimit
    rw [h]
    show (if user.subscriptionTier = SubscriptionTier.pro then true
      else match usageLimits user.subscriptionTier m with
        | none => true
        | some 0 => false
        | some limit => decide (getUsageCount db uid m d < limit)) = true
    rw [if_pos ht]
  · intro hlim
    have ht : user.subscriptionTier ≠ .pro := by
      intro hp
      rw [hp] at hlim
      cases m <;> simp [usageLimits] at hlim
    unfold checkUsageLimit
    rw [h]
    show (if user.subscriptionTier = SubscriptionTier.pro then true
      else match usageLimits user.subscriptionTier m with
        | none => true
        | some 0 => false
        | some limit => decide (getUsageCount db uid m d < limit)) = false
    rw [if_neg ht, hlim]
  · intro cap k ht hlim hcap h0
    have husers : findUserById (recordN db uid m d k) uid = some user := by
      unfold findUserById
      rw [show (recordN db uid m d k).users = db.users from
        recordN_users db uid m d k]
      exact h
    have hcount : getUsageCount (recordN db uid m d k) uid m d = k := by
      rw [getUsageCount_recordN, h0, Nat.zero_add]
    refine ⟨hcount, ?_⟩
    unfold checkUsageLimit
    rw [husers]
    show (if user.subscriptionTier = SubscriptionTier.pro then true
      else match usageLimits user.subscriptionTier m with
        | none => true
        | some 0 => false
        | some limit =>
          decide (getUsageCount (recordN db uid m d k) uid m d < limit)) =
      decide (k < cap)
    rw [if_neg ht, hlim]
    cases cap with
    | zero => exact absurd rfl hcap
    | succ n =>
      show decide (getUsageCount (recordN db uid m d k) uid m d < n + 1) =
        decide (k < n + 1)
      rw [hcount]

/-- C5 witness: the pro subscriber is always allowed; the community
subscriber is denied a zero-cap feature; and after exactly 2 (the
community Monte-Carlo cap) sequential `record` calls the check returns
`decide (2 < 2) = false`. -/
theorem usage_cap_enforcement_witness :
    checkUsageLimit wDb "user-pro" .monte_carlo_simulation 0 = true ∧
    checkUsageLimit wDb "user-1" .goal_probability 0 = false ∧
    (getUsageCount (recordN wDb "user-1" .monte_carlo_simulation 0 2)
        "user-1" .monte_carlo_simulation 0 = 2 ∧
      checkUsageLimit (recordN wDb "user-1" .monte_carlo_simulation 0 2)
        "user-1" .monte_carlo_simulation 0 = decide (2 < 2)) :=
  ⟨(usage_cap_enforcement wDb "user-pro" .monte_carlo_simulation 0 wProUser
      (by decide)).1 rfl,
   (usage_cap_enforcement wDb "user-1" .goal_probability 0 wUser
      (by decide)).2.1 rfl,
   (usage_cap_enforcement wDb "user-1" .monte_carlo_simulation 0 wUser
      (by decide)).2.2 2 2 (by decide) rfl (by decide) rfl⟩

/-!
Single-delivery characterizations used by the C1 re-delivery theorem.
-/

/-- One `handleSubscriptionCreated` delivery on a found subscriber:
exactly the keyed user update and one appended ledger row. -/
theorem subscriptionCreated_step (db : Db) (eid : String)
    (sub : StripeSubscription) (user : User)
    (h : findUserByStripeCustomerId db sub.customer = some user) :
    (handleSubscriptionCreated db eid sub).users =
        updateUserById db.users user.id (subscriptionCreatedData sub) ∧
      (handleSubscriptionCreated db eid sub).billingEvents =
        db.billingEvents ++ [subscriptionCreatedRow user.id eid sub] := by
  unfold handleSubscriptionCreated
  rw [h]
  exact ⟨rfl, rfl⟩

/-- One `handleCheckoutCompleted` delivery on a found subscriber:
exactly the keyed user update and one appended ledger row. -/
theorem checkoutCompleted_step (db : Db) (eid : String)
    (sess : StripeCheckoutSession) (now : Int) (user : User)
    (hmeta : jsTruthy sess.metaJanuaUserId = true)
    (h : findUserById db (sess.metaJanuaUserId.getD "") = some user) :
    (handleCheckoutCompleted db eid sess now).users =
        updateUserById db.users user.id (checkoutCompletedData sess now user) ∧
      (handleCheckoutCompleted db eid sess now).billingEvents =
        db.billingEvents ++ [checkoutCompletedRow user.id eid sess] := by
  unfold handleCheckoutCompleted
  rw [hmeta, h]
  exact ⟨rfl, rfl⟩

/-- C1 counterexample: delivering the same `subscription created` payload
(provider-native event id `evt_dup`) twice produces two BillingEvent
ledger rows with that event id, not exactly one — no handler checks for an
existing BillingEvent with the same event id before applying effects. -/
theorem webhook_idempotency_counterexample :
    countEvt (handleSubscriptionCreated
        (handleSubscriptionCreated wDb "evt_dup" wSub) "evt_dup"
        wSub).billingEvents "evt_dup" = 2 := by
  decide

/-- C1 (amended): the handlers perform no duplicate-event check, so
re-delivering the same payload appends a second ledger row with the same
provider-native event id (two rows instead of one); the subscriber update
is re-applied with the same values, so the user table after the duplicate
delivery equals the user table after the first (at most one effective tier
transition).  Shown for `handleSubscriptionCreated` and for
`handleCheckoutCompleted`. -/
theorem webhook_redelivery_appends_duplicate_row :
    (∀ (db : Db) (eid : String) (sub : StripeSubscription) (user : User),
      findUserByStripeCustomerId db sub.customer = some user →
      countEvt db.billingEvents eid = 0 →
      (handleSubscriptionCreated (handleSubscriptionCreated db eid sub) eid
            sub).users =
          (handleSubscriptionCreated db eid sub).users ∧
        countEvt (handleSubscriptionCreated
          (handleSubscriptionCreated db eid sub) eid sub).billingEvents
            eid = 2) ∧
    (∀ (db : Db) (eid : String) (sess : StripeCheckoutSession) (now : Int)
        (user : User),
      jsTruthy sess.metaJanuaUserId = true →
      findUserById db (sess.metaJanuaUserId.getD "") = some user →
      countEvt db.billingEvents eid = 0 →
      (handleCheckoutCompleted (handleCheckoutCompleted db eid sess now) eid
            sess now).users =
          (handleCheckoutCompleted db eid sess now).users ∧
        countEvt (handleCheckoutCompleted
          (handleCheckoutCompleted db eid sess now) eid sess
            now).billingEvents eid = 2) := by
  constructor
  · intro db eid sub user h1 h2
    obtain ⟨hu1, he1⟩ := subscriptionCreated_step db eid sub user h1
    have h1' : db.users.find?
        (fun u => decide (u.stripeCustomerId = some sub.customer)) =
          some user := h1
    have hupd : updAt user.id (subscriptionCreatedData sub) user =
        subscriptionCreatedData sub user := by
      unfold updAt
      rw [if_pos rfl]
    have hfind2 : findUserByStripeCustomerId
        (handleSubscriptionCreated db eid sub) sub.customer =
          some (subscriptionCreatedData sub user) := by
      unfold findUserByStripeCustomerId
      rw [hu1, findUserCid_updateUserById db.users user.id (some sub.customer)
        (subscriptionCreatedData sub) (fun v => rfl), h1']
      show some (updAt user.id (subscriptionCreatedData sub) user) = _
      rw [hupd]
    obtain ⟨hu2, he2⟩ := subscriptionCreated_step
      (handleSubscriptionCreated db eid sub) eid sub
      (subscriptionCreatedData sub user) hfind2
    constructor
    · rw [hu2, hu1,
        show (subscriptionCreatedData sub user).id = user.id from rfl]
      exact updateUserById_twice db.users user.id
        (subscriptionCreatedData sub) (subscriptionCreatedData sub)
        (fun v => rfl) (fun v => rfl)
    · rw [he2, he1,
        countEvt_append_same (db.billingEvents ++
          [subscriptionCreatedRow user.id eid sub])
          (subscriptionCreatedRow (subscriptionCreatedData sub user).id eid sub)
          eid rfl,
        countEvt_append_same db.billingEvents
          (subscriptionCreatedRow user.id eid sub) eid rfl, h2]
  · intro db eid sess now user hmeta h1 h2
    obtain ⟨hu1, he1⟩ := checkoutCompleted_step db eid sess now user hmeta h1
    have h1' : db.users.find?
        (fun u => decide (u.id = sess.metaJanuaUserId.getD "")) =
          some user := h1
    have hupd : updAt user.id (checkoutCompletedData sess now user) user =
        checkoutCompletedData sess now user user := by
      unfold updAt
      rw [if_pos rfl]
    have hfind2 : findUserById (handleCheckoutCompleted db eid sess now)
        (sess.metaJanuaUserId.getD "") =
          some (checkoutCompletedData sess now user user) := by
      unfold findUserById
      rw [hu1, findUserId_updateUserById db.users user.id
        (sess.metaJanuaUserId.getD "") (checkoutCompletedData sess now user)
        (fun v => rfl), h1']
      show some (updAt user.id (checkoutCompletedData sess now user) user) = _
      rw [hupd]
    obtain ⟨hu2, he2⟩ := checkoutCompleted_step
      (handleCheckoutCompleted db eid sess now) eid sess now
      (checkoutCompletedData sess now user user) hmeta hfind2
    constructor
    · rw [hu2, hu1,
        show (checkoutCompletedData sess now user user).id = user.id from rfl]
      refine updateUserById_twice db.users user.id
        (checkoutCompletedData sess now user)
        (checkoutCompletedData sess now (checkoutCompletedData sess now user user))
        (fun v => rfl) ?_
      intro v
      unfold checkoutCompletedData
      by_cases hc : jsTruthy sess.customer = true
      · simp [hc]
      · simp [hc]
    · rw [he2, he1,
        countEvt_append_same (db.billingEvents ++
          [checkoutCompletedRow user.id eid sess])
          (checkoutCompletedRow (checkoutCompletedData sess now user user).id
            eid sess) eid rfl,
        countEvt_append_same db.billingEvents
          (checkoutCompletedRow user.id eid sess) eid rfl, h2]

/-- C1 amended-claim witness: both re-delivery scenarios at concrete
inputs — the user table is unchanged by the duplicate, and the duplicated
event id counts two ledger rows. -/
theorem webhook_redelivery_appends_duplicate_row_witness :
    ((handleSubscriptionCreated
        (handleSubscriptionCreated wDb "evt_a" wSub) "evt_a" wSub).users =
        (handleSubscriptionCreated wDb "evt_a" wSub).users ∧
      countEvt (handleSubscriptionCreated
        (handleSubscriptionCreated wDb "evt_a" wSub) "evt_a"
          wSub).billingEvents "evt_a" = 2) ∧
    ((handleCheckoutCompleted
        (handleCheckoutCompleted wDb "evt_b" wSession 5) "evt_b"
          wSession 5).users =
        (handleCheckoutCompleted wDb "evt_b" wSession 5).users ∧
      countEvt (handleCheckoutCompleted
        (handleCheckoutCompleted wDb "evt_b" wSession 5) "evt_b"
          wSession 5).billingEvents "evt_b" = 2) :=
  ⟨webhook_redelivery_appends_duplicate_row.1 wDb "evt_a" wSub wUser
      (by decide) (by decide),
   webhook_redelivery_appends_duplicate_row.2 wDb "evt_b" wSession 5 wUser
      (by decide) (by decide) (by decide)⟩

end DhanamBilling
